import Mathlib

/-! Reference Hub link-rot monitor: the classifier, the scan pass, seeding and
the scheduler.

A shallow embedding of `reference-hub-project/server/index.js`.

Conventions of the embedding:

* JavaScript counts a string in UTF-16 code units. A string the program cuts
  or builds (`error.message`, `newStatus`, a document's `status`) is a
  `JSString`, the list of its code units, so that `substring(0, 50)` may end
  between the two halves of a surrogate pair; `js` embeds a literal. A string
  the program passes along, compares whole or searches for an ASCII text
  (`url`, `title`, `category`, `error.code`, a response body) is a Lean
  `String`.
* An HTTP status code is a `Nat`, and a template literal prints it in decimal
  (`toString`).
* `axios.get` is an oracle: for a URL it either resolves with a response or
  rejects with an error. Everything `checkLinkHealth` reads from that result
  (`response.status`, `response.data`, `error.response`, `error.code`,
  `error.message`) is a field of the result.
* An error caught by `checkLinkHealth` has a string `message`, as every error
  axios rejects with has.
* A timestamp (`new Date()`) is a `Nat`; `lastChecked: null` is `none`.
* The collection is a list of documents. A document's `_id` is its position
  in the list, so `save` updates the position the document was read from.
  `save` sends the paths whose value differs from the value `find` read, as
  mongoose does, and other passes may write the collection between the `find`
  and the saves of a pass.
* `console.log` output is not modelled.
-/

namespace ReferenceHub

/-! ## Strings -/

/-- Scan for `sub` at every position of the character list. -/
def includesChars (sub : List Char) : List Char → Bool
  | [] => sub.isPrefixOf []
  | c :: cs => sub.isPrefixOf (c :: cs) || includesChars sub cs

/-- JavaScript `s.includes(sub)`: `sub` occurs in `s` as a contiguous run. -/
def includes (s sub : String) : Bool :=
  includesChars sub.toList s.toList

/-- A JavaScript string as JavaScript indexes it: its UTF-16 code units. -/
abbrev JSString := List Nat

/-- The UTF-16 code units of one character: itself in the basic plane, a
surrogate pair above it. -/
def utf16 (c : Char) : List Nat :=
  if c.toNat < 65536 then [c.toNat]
  else [55296 + (c.toNat - 65536) / 1024, 56320 + (c.toNat - 65536) % 1024]

/-- The UTF-16 code units of a list of characters. -/
def utf16Units : List Char → List Nat
  | [] => []
  | c :: cs => utf16 c ++ utf16Units cs

/-- The JavaScript string a piece of text stands for. -/
def js (s : String) : JSString :=
  utf16Units s.toList

/-- JavaScript `s.startsWith(p)`. -/
def startsWith (s p : JSString) : Bool :=
  p.isPrefixOf s

/-- JavaScript `s.substring(0, n)`: the first `n` code units of `s`, all of
`s` when it has fewer. -/
def substring0 (s : JSString) (n : Nat) : JSString :=
  s.take n

/-! ## The probe: what `axios.get` hands back -/

/-- The value of `response.data`. -/
inductive ResponseData where
  /-- `undefined` or `null`: no body. -/
  | absent
  /-- A body of type string. -/
  | text (s : String)
  /-- A body that is not a string (parsed JSON, buffer, number, ...); the flag
  is its JavaScript truthiness. -/
  | other (truthy : Bool)
  deriving DecidableEq, Repr

/-- An HTTP response as axios reports it. -/
structure Response where
  status : Nat
  data : ResponseData
  deriving DecidableEq, Repr

/-- The error `axios.get` rejects with. -/
structure AxiosError where
  response : Option Response
  code : Option String
  message : JSString
  deriving DecidableEq, Repr

/-- The settled promise of `axios.get`. -/
inductive AxiosResult where
  | resolved (response : Response)
  | rejected (error : AxiosError)
  deriving DecidableEq, Repr

/-- The `validateStatus` option passed to `axios.get` (index.js line 71). -/
def validateStatus (status : Nat) : Bool :=
  decide (status ≥ 200) && decide (status < 500)

/-- JavaScript truthiness of `response.data`. -/
def ResponseData.truthy : ResponseData → Bool
  | .absent => false
  | .text s => s != ""
  | .other t => t

/-- The test `typeof response.data === 'string'`. -/
def ResponseData.isString : ResponseData → Bool
  | .text _ => true
  | _ => false

/-- The test `response.data.includes('Error 404') ||
response.data.includes('page not found')`, reached only for a string. -/
def ResponseData.hasNotFoundText : ResponseData → Bool
  | .text s => includes s "Error 404" || includes s "page not found"
  | _ => false

/-! ## The classifier -/

/-- The object `{ newStatus, warning }` returned by `checkLinkHealth`. -/
structure HealthResult where
  newStatus : JSString
  warning : Bool
  deriving DecidableEq, Repr

/-- The body of the `try` block after `axios.get` resolved (lines 74-87). -/
def classifyResponse (response : Response) : HealthResult :=
  let statusCode := response.status
  if statusCode ≥ 200 ∧ statusCode < 400 then
    if response.data.truthy && response.data.isString && response.data.hasNotFoundText then
      { newStatus := js ("Soft 404 (Code: " ++ toString statusCode ++ ")"), warning := true }
    else
      { newStatus := js ("OK (Code: " ++ toString statusCode ++ ")"), warning := false }
  else
    { newStatus := js ("Failed (Code: " ++ toString statusCode ++ ")"), warning := true }

/-- The `catch` block (lines 88-97). -/
def classifyError (error : AxiosError) : HealthResult :=
  let newStatus :=
    match error.response with
    | some r => js ("Failed (Code: " ++ toString r.status ++ ")")
    | none =>
      if error.code = some "ECONNABORTED" then js "Timeout Error"
      else js "Network Error: " ++ substring0 error.message 50 ++ js "..."
  { newStatus := newStatus, warning := true }

/-- The function `checkLinkHealth(url)` (lines 59-100); `get` is `axios.get`
with the request configuration of lines 64-72. -/
def checkLinkHealth (get : String → AxiosResult) (url : String) : HealthResult :=
  match get url with
  | .resolved response => classifyResponse response
  | .rejected error => classifyError error

/-! ## Documents and the collection -/

/-- A document of the `Link` model (`LinkSchema`, lines 46-53). -/
structure LinkDoc where
  title : String
  category : String
  url : String
  status : JSString
  lastChecked : Option Nat
  linkRotWarning : Bool
  deriving DecidableEq, Repr

/-- The `links` collection; a document's `_id` is its position. -/
abbrev Store := List LinkDoc

/-- An entry of the `initialLinks` array. -/
structure SeedLink where
  url : String
  title : String
  category : String
  status : String
  linkRotWarning : Bool
  deriving DecidableEq, Repr

/-- The array `initialLinks` (lines 12-41). -/
def initialLinks : List SeedLink :=
  [ { url := "https://ipindia.gov.in/writereaddata/portal/ipoact/1_31_1_patent-act-1970-11march2015.pdf",
      title := "The Patents Act, 1970 (As amended)",
      category := "Patents",
      status := "Pending Check",
      linkRotWarning := false },
    { url := "https://ipindia.gov.in/",
      title := "Copyright Act, 1957",
      category := "Copyright",
      status := "Pending Check",
      linkRotWarning := false },
    { url := "https://ipindia.gov.in/this-link-is-broken-on-purpose.html",
      title := "Trademarks Act, 1999",
      category := "Trademarks",
      status := "Pending Check",
      linkRotWarning := false },
    { url := "https://www.indiacode.nic.in/bitstream/123456789/1981/5/A1999-48.pdf",
      title := "Geographical Indications of Goods (Registration and Protection) Act, 1999",
      category := "GI",
      status := "Pending Check",
      linkRotWarning := false } ]

/-! ## Seeding at startup -/

/-- The object `{ ...link, lastChecked: null }` built at lines 139-142. -/
def seedDoc (link : SeedLink) : LinkDoc :=
  { title := link.title, category := link.category, url := link.url,
    status := js link.status, lastChecked := none, linkRotWarning := link.linkRotWarning }

/-- The `required: true` validators of `LinkSchema`: an empty string is
refused for `title`, `category` and `url`. -/
def validRequired (doc : LinkDoc) : Bool :=
  doc.title != "" && doc.category != "" && doc.url != ""

/-- Insertion of one document under the schema: the validators and the
unique index on `url`. `none` is a rejected insertion. -/
def insertOne (store : Store) (doc : LinkDoc) : Option Store :=
  if validRequired doc && !(store.any fun d => d.url == doc.url) then
    some (store ++ [doc])
  else
    none

/-- The call `Link.insertMany(docs)`: the documents are inserted in order and
the first rejected one rejects the call. -/
def insertMany (store : Store) : List LinkDoc → Option Store
  | [] => some store
  | doc :: docs =>
    match insertOne store doc with
    | some store' => insertMany store' docs
    | none => none

/-- The seeding step of the `mongoose.connect().then` callback
(lines 137-146); `none` is the rejection that reaches the `.catch`. -/
def seed (store : Store) : Option Store :=
  let count := store.length
  if count = 0 then
    insertMany store (initialLinks.map seedDoc)
  else
    some store

/-! ## The scan pass -/

/-- What one pass meets outside the program, per loop iteration `i`
(counted from 0): the settled `axios.get`, the clock read by `new Date()`,
and whether `linkDoc.save()` fulfils. -/
structure World where
  get : Nat → String → AxiosResult
  now : Nat → Nat
  saveOk : Nat → LinkDoc → Bool

/-- The state of a pass: the collection, the URLs handed to `checkLinkHealth`
so far, the saves that fulfilled so far (position and the in-memory document
saved), and whether the function returned normally. -/
structure PassState where
  store : Store
  probed : List String
  saves : List (Nat × LinkDoc)
  finished : Bool
  deriving DecidableEq, Repr

/-- The three assignments of lines 109-111 on the in-memory document. -/
def assignHealth (linkDoc : LinkDoc) (r : HealthResult) (now : Nat) : LinkDoc :=
  { linkDoc with status := r.newStatus, lastChecked := some now, linkRotWarning := r.warning }

/-- The document iteration `i` saves for `linkDoc`. -/
def checkedDoc (w : World) (i : Nat) (linkDoc : LinkDoc) : LinkDoc :=
  assignHealth linkDoc (checkLinkHealth (w.get i) linkDoc.url) (w.now i)

/-- The update `linkDoc.save()` sends for a document read as `loaded`:
`$set` of the paths whose value was changed since the read. A path assigned
the value it already had is not sent, and the stored document keeps what it
holds there. -/
def setModified (loaded linkDoc stored : LinkDoc) : LinkDoc :=
  { stored with
    status := if linkDoc.status = loaded.status then stored.status else linkDoc.status,
    lastChecked :=
      if linkDoc.lastChecked = loaded.lastChecked then stored.lastChecked
      else linkDoc.lastChecked,
    linkRotWarning :=
      if linkDoc.linkRotWarning = loaded.linkRotWarning then stored.linkRotWarning
      else linkDoc.linkRotWarning }

/-- A fulfilled `linkDoc.save()` (line 112) for the document read from
position `i` as `loaded`: the update lands on what the collection holds at
that position at the time of the save. -/
def save (store : Store) (i : Nat) (loaded linkDoc : LinkDoc) : Store :=
  match store[i]? with
  | some stored => store.set i (setModified loaded linkDoc stored)
  | none => store

/-- The `for ... of` loop of lines 106-115 from iteration `i` on, with the
writes `others i` of other passes landing on the collection before the save of
iteration `i`. A rejected `save()` is not caught: it leaves the loop and the
function. -/
def scanLoopAmid (w : World) (others : Nat → Store → Store) :
    Nat → List LinkDoc → PassState → PassState
  | _, [], st => { st with finished := true }
  | i, linkDoc :: rest, st =>
    let r := checkLinkHealth (w.get i) linkDoc.url
    let linkDoc' := assignHealth linkDoc r (w.now i)
    let st' := { st with store := others i st.store, probed := st.probed ++ [linkDoc.url] }
    if w.saveOk i linkDoc' then
      scanLoopAmid w others (i + 1) rest
        { st' with store := save st'.store i linkDoc linkDoc',
                   saves := st'.saves ++ [(i, linkDoc')] }
    else
      st'

/-- The function `updateAllLinkStatuses()` (lines 102-117) running while
other passes write the collection: `Link.find({})` reads the whole
collection, then the loop runs over what was read. -/
def updateAllLinkStatusesAmid (w : World) (others : Nat → Store → Store)
    (store : Store) : PassState :=
  let linksToUpdate := store
  scanLoopAmid w others 0 linksToUpdate
    { store := store, probed := [], saves := [], finished := false }

/-- The loop of a pass during which nothing else writes the collection. -/
def scanLoop (w : World) : Nat → List LinkDoc → PassState → PassState :=
  scanLoopAmid w (fun _ store => store)

/-- The function `updateAllLinkStatuses()` (lines 102-117) when no other
pass writes the collection between its `find` and its last save. -/
def updateAllLinkStatuses (w : World) (store : Store) : PassState :=
  updateAllLinkStatusesAmid w (fun _ store => store) store

/-! ## The scheduler -/

/-- Where the `app.listen` callback (lines 148-159) stands: not yet called,
awaiting the startup pass, or past `cron.schedule` (`cronJob` set). -/
inductive Phase where
  | notStarted
  | startupPass
  | scheduled
  deriving DecidableEq, Repr

/-- Scheduler state: the phase, the passes of `updateAllLinkStatuses` in
flight, and the passes started so far. -/
structure SchedState where
  phase : Phase
  running : Nat
  started : Nat
  deriving DecidableEq, Repr

/-- The events of the scheduler. -/
inductive Event where
  /-- The `app.listen` callback is called. -/
  | startup
  /-- The cron expression `0 * * * *` fires. -/
  | trigger
  /-- A pass in flight returns. -/
  | passCompleted
  deriving DecidableEq, Repr

/-- The state before the server listens (`cronJob = null`). -/
def SchedState.init : SchedState :=
  { phase := .notStarted, running := 0, started := 0 }

/-- One step of the scheduler; `none` when the event cannot occur.
The cron callback (lines 153-156) calls `updateAllLinkStatuses()` with no
test of a pass in flight. -/
def step (s : SchedState) : Event → Option SchedState
  | .startup =>
    match s.phase with
    | .notStarted => some { phase := .startupPass, running := s.running + 1, started := s.started + 1 }
    | _ => none
  | .trigger =>
    match s.phase with
    | .scheduled => some { s with running := s.running + 1, started := s.started + 1 }
    | _ => none
  | .passCompleted =>
    if s.running = 0 then none
    else
      match s.phase with
      | .notStarted => none
      | .startupPass => some { s with phase := .scheduled, running := s.running - 1 }
      | .scheduled => some { s with running := s.running - 1 }

/-- The state after a sequence of events, from `s`. -/
def run (s : SchedState) : List Event → Option SchedState
  | [] => some s
  | e :: es =>
    match step s e with
    | some s' => run s' es
    | none => none


/-! ## Definitions used by the statements -/

/-- The documents iterations `i`, `i + 1`, ... save for `docs`. -/
def checkedFrom (w : World) : Nat → List LinkDoc → List LinkDoc
  | _, [] => []
  | i, d :: rest => checkedDoc w i d :: checkedFrom w (i + 1) rest

/-- The save log iterations `i`, `i + 1`, ... write for `docs`. -/
def savesFrom (w : World) : Nat → List LinkDoc → List (Nat × LinkDoc)
  | _, [] => []
  | i, d :: rest => (i, checkedDoc w i d) :: savesFrom w (i + 1) rest

/-- What holds of the passes in flight before `cron.schedule` has run. -/
def startupInvariant (s : SchedState) : Prop :=
  (s.phase = .notStarted → s.running = 0) ∧ (s.phase = .startupPass → s.running = 1)

/-! ## Example inputs -/

/-- A collection for the examples: the four seeded documents. -/
def exampleStore : Store := initialLinks.map seedDoc

/-- A world for the examples: every request resolves with code 200 and no
body, the clock reads `1000 + i` at iteration `i`, every save fulfils. -/
def exampleWorld : World :=
  { get := fun _ _ => .resolved { status := 200, data := .absent },
    now := fun i => 1000 + i,
    saveOk := fun _ _ => true }

/-- The same world, except that the save of iteration 1 is rejected. -/
def failingSaveWorld : World :=
  { exampleWorld with saveOk := fun i _ => i != 1 }

/-- A collection of one document whose last check failed. -/
def overlapStore : Store :=
  [ { title := "Copyright Act, 1957", category := "Copyright",
      url := "https://ipindia.gov.in/", status := js "Failed (Code: 500)",
      lastChecked := some 900, linkRotWarning := true } ]

/-- The world of an earlier pass still in flight: its request resolves with
code 200 and no body at time 1000. -/
def earlierPassWorld : World :=
  { get := fun _ _ => .resolved { status := 200, data := .absent },
    now := fun _ => 1000,
    saveOk := fun _ _ => true }

/-- The world of a later pass: its request is rejected with a response of
code 503 at time 2000, and every save fulfils. -/
def laterPassWorld : World :=
  { get := fun _ _ => .rejected { response := some { status := 503, data := .absent },
                                  code := some "ERR_BAD_RESPONSE",
                                  message := js "Request failed with status code 503" },
    now := fun _ => 2000,
    saveOk := fun _ _ => true }

/-- The write of the earlier pass, which read `overlapStore` in its own
`find`: it saves its check of the document at position 0 after the later pass
has read the collection and before the later pass saves that document. -/
def earlierPassSave : Nat → Store → Store :=
  fun i store =>
    match i, overlapStore[0]? with
    | 0, some loaded => save store 0 loaded (checkedDoc earlierPassWorld 0 loaded)
    | _, _ => store

/-! ## Lemmas on strings -/

theorem includesChars_iff (sub : List Char) (l : List Char) :
    includesChars sub l = true ↔ sub <:+: l := by
  induction l with
  | nil =>
    simp [includesChars]
  | cons c cs ih =>
    simp only [includesChars, Bool.or_eq_true, ih, List.infix_cons_iff, List.isPrefixOf_iff_prefix]

theorem text_nonempty_of_includes (s sub : String) (hsub : sub ≠ "")
    (h : includes s sub = true) : (s != "") = true := by
  rcases s with ⟨l⟩
  cases l with
  | nil =>
    rcases sub with ⟨m⟩
    cases m with
    | nil => exact absurd rfl hsub
    | cons a as => simp [includes, includesChars] at h
  | cons a as =>
    rw [bne_iff_ne]
    intro h
    have := congrArg String.length h
    simp [String.length] at this

theorem includes_iff_infix (s sub : String) :
    includes s sub = true ↔ sub.toList <:+: s.toList :=
  includesChars_iff sub.toList s.toList

theorem utf16Units_append (a b : List Char) :
    utf16Units (a ++ b) = utf16Units a ++ utf16Units b := by
  induction a with
  | nil => rfl
  | cons c cs ih => simp [utf16Units, ih]

theorem js_append (a b : String) : js (a ++ b) = js a ++ js b := by
  simp [js, utf16Units_append]

theorem startsWith_append (a b p : JSString) (h : p.length ≤ a.length) :
    startsWith (a ++ b) p = startsWith a p := by
  rw [Bool.eq_iff_iff]
  simp only [startsWith, List.isPrefixOf_iff_prefix]
  constructor
  · intro hp
    exact List.prefix_of_prefix_length_le hp (List.prefix_append _ _) h
  · intro hp
    exact hp.trans (List.prefix_append _ _)

theorem validateStatus_iff (status : Nat) :
    validateStatus status = true ↔ 200 ≤ status ∧ status < 500 := by
  simp [validateStatus]

/-! ## The classifier -/

/-- C1: a response with a code in [200,400) whose body is a string containing
"Error 404" or "page not found" is classified "Soft 404 (Code: c)" with the
warning set. -/
theorem checkLinkHealth_soft404 (get : String → AxiosResult) (url : String)
    (c : Nat) (body : String)
    (hget : get url = .resolved { status := c, data := .text body })
    (hc : 200 ≤ c ∧ c < 400)
    (hbody : includes body "Error 404" = true ∨ includes body "page not found" = true) :
    checkLinkHealth get url =
      { newStatus := js ("Soft 404 (Code: " ++ toString c ++ ")"), warning := true } := by
  have hne : (body != "") = true := by
    rcases hbody with h | h
    · exact text_nonempty_of_includes body _ (by decide) h
    · exact text_nonempty_of_includes body _ (by decide) h
  have hnf : (includes body "Error 404" || includes body "page not found") = true := by
    rcases hbody with h | h <;> simp [h]
  simp [checkLinkHealth, hget, classifyResponse, hc, ResponseData.truthy,
    ResponseData.isString, ResponseData.hasNotFoundText, hne, hnf]

theorem checkLinkHealth_soft404_witness :
    checkLinkHealth (fun _ => .resolved { status := 200, data := .text "<html>Error 404</html>" })
        "https://ipindia.gov.in/" =
      { newStatus := js "Soft 404 (Code: 200)", warning := true } :=
  checkLinkHealth_soft404 _ "https://ipindia.gov.in/" 200 "<html>Error 404</html>" rfl
    (by decide) (Or.inl (by decide))

/-- C2: a response with a code in [200,400) whose body is absent, is not a
string, or is a string containing neither "Error 404" nor "page not found" is
classified "OK (Code: c)" with the warning clear. -/
theorem checkLinkHealth_ok (get : String → AxiosResult) (url : String)
    (c : Nat) (data : ResponseData)
    (hget : get url = .resolved { status := c, data := data })
    (hc : 200 ≤ c ∧ c < 400)
    (hbody : ∀ s, data = .text s →
      includes s "Error 404" = false ∧ includes s "page not found" = false) :
    checkLinkHealth get url =
      { newStatus := js ("OK (Code: " ++ toString c ++ ")"), warning := false } := by
  have hnf : data.hasNotFoundText = false := by
    cases data with
    | absent => rfl
    | other t => rfl
    | text s =>
      obtain ⟨h1, h2⟩ := hbody s rfl
      simp [ResponseData.hasNotFoundText, h1, h2]
  simp [checkLinkHealth, hget, classifyResponse, hc, hnf]

theorem checkLinkHealth_ok_witness :
    checkLinkHealth (fun _ => .resolved { status := 200, data := .text "%PDF-1.4 patent act" })
        "https://ipindia.gov.in/" =
      { newStatus := js "OK (Code: 200)", warning := false } :=
  checkLinkHealth_ok _ "https://ipindia.gov.in/" 200 (.text "%PDF-1.4 patent act") rfl
    (by decide) (by intro s hs; cases hs; exact ⟨by decide, by decide⟩)

/-- C3: a probe outcome carrying a status code c outside [200,400), whether a
resolved response or the response of a thrown error, is classified
"Failed (Code: c)" with the warning set, whatever the body. -/
theorem checkLinkHealth_failed (get : String → AxiosResult) (url : String)
    (c : Nat) (data : ResponseData)
    (h : (get url = .resolved { status := c, data := data } ∧ ¬(200 ≤ c ∧ c < 400)) ∨
      (∃ code message, get url =
        .rejected { response := some { status := c, data := data },
                    code := code, message := message })) :
    checkLinkHealth get url =
      { newStatus := js ("Failed (Code: " ++ toString c ++ ")"), warning := true } := by
  rcases h with ⟨hget, hc⟩ | ⟨code, message, hget⟩
  · simp [checkLinkHealth, hget, classifyResponse, hc]
  · simp [checkLinkHealth, hget, classifyError]

theorem checkLinkHealth_failed_witness :
    (validateStatus 404 = true ∧
      checkLinkHealth (fun _ => .resolved { status := 404, data := .text "gone" })
          "https://ipindia.gov.in/this-link-is-broken-on-purpose.html" =
        { newStatus := js "Failed (Code: 404)", warning := true }) ∧
    (validateStatus 503 = false ∧
      checkLinkHealth
          (fun _ => .rejected { response := some { status := 503, data := .absent },
                                code := some "ERR_BAD_RESPONSE",
                                message := js "Request failed with status code 503" })
          "https://ipindia.gov.in/" =
        { newStatus := js "Failed (Code: 503)", warning := true }) :=
  ⟨⟨by decide, checkLinkHealth_failed _ _ 404 (.text "gone") (Or.inl ⟨rfl, by decide⟩)⟩,
   ⟨by decide, checkLinkHealth_failed _ _ 503 .absent (Or.inr ⟨_, _, rfl⟩)⟩⟩

/-- C4: a thrown error with no response and code 'ECONNABORTED' is classified
"Timeout Error" with the warning set, whatever its message and the URL. -/
theorem checkLinkHealth_timeout (get : String → AxiosResult) (url : String)
    (message : JSString)
    (hget : get url =
      .rejected { response := none, code := some "ECONNABORTED", message := message }) :
    checkLinkHealth get url = { newStatus := js "Timeout Error", warning := true } := by
  simp [checkLinkHealth, hget, classifyError]

theorem checkLinkHealth_timeout_witness :
    checkLinkHealth
        (fun _ => .rejected { response := none, code := some "ECONNABORTED",
                              message := js "timeout of 10000ms exceeded" })
        "https://ipindia.gov.in/" =
      { newStatus := js "Timeout Error", warning := true } :=
  checkLinkHealth_timeout _ "https://ipindia.gov.in/" (js "timeout of 10000ms exceeded") rfl

/-- C5: a thrown error with no response and a code other than 'ECONNABORTED'
is classified "Network Error: " followed by the first 50 UTF-16 code units of
its message (what `substring(0, 50)` keeps) and "...", with the warning set;
the status has at most 68 code units, and exactly 68 when the message has
more than 50. -/
theorem checkLinkHealth_networkError (get : String → AxiosResult) (url : String)
    (code : Option String) (message : JSString)
    (hget : get url = .rejected { response := none, code := code, message := message })
    (hcode : code ≠ some "ECONNABORTED") :
    checkLinkHealth get url =
        { newStatus := js "Network Error: " ++ message.take 50 ++ js "...",
          warning := true } ∧
      (checkLinkHealth get url).newStatus.length ≤ 68 ∧
      (50 < message.length → (checkLinkHealth get url).newStatus.length = 68) := by
  have hval : checkLinkHealth get url =
      { newStatus := js "Network Error: " ++ message.take 50 ++ js "...",
        warning := true } := by
    unfold checkLinkHealth
    rw [hget]
    simp only [classifyError, if_neg hcode, substring0]
  have h15 : (js "Network Error: ").length = 15 := by decide
  have h3 : (js "...").length = 3 := by decide
  refine ⟨hval, ?_, ?_⟩
  · rw [hval]
    simp only [List.length_append, h15, h3, List.length_take]
    omega
  · intro hm
    rw [hval]
    simp only [List.length_append, h15, h3, List.length_take]
    omega

theorem checkLinkHealth_networkError_witness :
    checkLinkHealth
        (fun _ => .rejected
          { response := none, code := some "ENOTFOUND",
            message := js (String.mk ('x' :: List.replicate 30 (Char.ofNat 128512))) })
        "https://this-host-does-not-exist.example.invalid/" =
      { newStatus :=
          js "Network Error: " ++
            (js (String.mk ('x' :: List.replicate 24 (Char.ofNat 128512))) ++ [55357]) ++
            js "...",
        warning := true } ∧
    (checkLinkHealth
        (fun _ => .rejected
          { response := none, code := some "ENOTFOUND",
            message := js (String.mk ('x' :: List.replicate 30 (Char.ofNat 128512))) })
        "https://this-host-does-not-exist.example.invalid/").newStatus.length = 68 :=
  have h := checkLinkHealth_networkError
    (fun _ => .rejected
      { response := none, code := some "ENOTFOUND",
        message := js (String.mk ('x' :: List.replicate 30 (Char.ofNat 128512))) })
    "https://this-host-does-not-exist.example.invalid/"
    (some "ENOTFOUND") (js (String.mk ('x' :: List.replicate 30 (Char.ofNat 128512))))
    rfl (by decide)
  ⟨h.1, h.2.2 (by decide)⟩

/-! ## The warning flag as a function of the status label -/

theorem classifyResponse_warning (response : Response) :
    (classifyResponse response).warning =
      !startsWith (classifyResponse response).newStatus (js "OK") := by
  unfold classifyResponse
  simp only []
  split
  · split
    · simp only [String.append_assoc, js_append]
      rw [startsWith_append _ _ _ (by decide)]
      decide
    · simp only [String.append_assoc, js_append]
      rw [startsWith_append _ _ _ (by decide)]
      decide
  · simp only [String.append_assoc, js_append]
    rw [startsWith_append _ _ _ (by decide)]
    decide

theorem classifyError_warning (error : AxiosError) :
    (classifyError error).warning =
      !startsWith (classifyError error).newStatus (js "OK") := by
  unfold classifyError
  simp only []
  split
  · simp only [String.append_assoc, js_append]
    rw [startsWith_append _ _ _ (by decide)]
    decide
  · split
    · decide
    · simp only [List.append_assoc]
      rw [startsWith_append _ _ _ (by decide)]
      decide

theorem checkLinkHealth_warning (get : String → AxiosResult) (url : String) :
    (checkLinkHealth get url).warning =
      !startsWith (checkLinkHealth get url).newStatus (js "OK") := by
  unfold checkLinkHealth
  split
  · exact classifyResponse_warning _
  · exact classifyError_warning _

/-! ## The scan pass -/

theorem setModified_loaded (d : LinkDoc) (r : HealthResult) (t : Nat) :
    setModified d (assignHealth d r t) d = assignHealth d r t := by
  rcases d with ⟨title, category, url, status, lastChecked, linkRotWarning⟩
  simp only [setModified, assignHealth]
  congr 1
  · split <;> simp_all
  · split <;> simp_all
  · split <;> simp_all

theorem set_length_append (pre : List LinkDoc) (d d' : LinkDoc) (rest : List LinkDoc) :
    (pre ++ d :: rest).set pre.length d' = pre ++ d' :: rest := by
  induction pre with
  | nil => rfl
  | cons a as ih => simp [ih]

theorem save_loaded (w : World) (pre : List LinkDoc) (d : LinkDoc) (rest : List LinkDoc)
    (i : Nat) (hi : pre.length = i) :
    save (pre ++ d :: rest) i d (checkedDoc w i d) = pre ++ checkedDoc w i d :: rest := by
  subst hi
  have hget : (pre ++ d :: rest)[pre.length]? = some d := by
    rw [List.getElem?_append_right (Nat.le_refl _)]
    simp
  simp only [save, hget, checkedDoc, setModified_loaded]
  exact set_length_append pre d _ rest

theorem checkedFrom_length (w : World) (docs : List LinkDoc) (i : Nat) :
    (checkedFrom w i docs).length = docs.length := by
  induction docs generalizing i with
  | nil => rfl
  | cons d rest ih => simp [checkedFrom, ih]

theorem savesFrom_length (w : World) (docs : List LinkDoc) (i : Nat) :
    (savesFrom w i docs).length = docs.length := by
  induction docs generalizing i with
  | nil => rfl
  | cons d rest ih => simp [savesFrom, ih]

theorem checkedFrom_getElem? (w : World) (docs : List LinkDoc) (i j : Nat) :
    (checkedFrom w i docs)[j]? = (docs[j]?).map (checkedDoc w (i + j)) := by
  induction docs generalizing i j with
  | nil => simp [checkedFrom]
  | cons d rest ih =>
    cases j with
    | zero => simp [checkedFrom]
    | succ j =>
      simp only [checkedFrom, List.getElem?_cons_succ, ih]
      rw [show i + 1 + j = i + (j + 1) by omega]

theorem savesFrom_getElem? (w : World) (docs : List LinkDoc) (i j : Nat) :
    (savesFrom w i docs)[j]? = (docs[j]?).map (fun d => (i + j, checkedDoc w (i + j) d)) := by
  induction docs generalizing i j with
  | nil => simp [savesFrom]
  | cons d rest ih =>
    cases j with
    | zero => simp [savesFrom]
    | succ j =>
      simp only [savesFrom, List.getElem?_cons_succ, ih]
      rw [show i + 1 + j = i + (j + 1) by omega]

theorem savesFrom_mem (w : World) (docs : List LinkDoc) :
    ∀ (i : Nat) (p : Nat × LinkDoc), p ∈ savesFrom w i docs →
      ∃ j d, docs[j]? = some d ∧ p = (i + j, checkedDoc w (i + j) d) := by
  induction docs with
  | nil =>
    intro i p hp
    simp [savesFrom] at hp
  | cons d rest ih =>
    intro i p hp
    simp only [savesFrom, List.mem_cons] at hp
    rcases hp with hp | hp
    · exact ⟨0, d, by simp, by simpa using hp⟩
    · obtain ⟨j, d', hj, hp'⟩ := ih (i + 1) p hp
      refine ⟨j + 1, d', by simpa using hj, ?_⟩
      rw [hp', show i + 1 + j = i + (j + 1) by omega]

/-- The loop of a pass running alone when every save fulfils. -/
theorem scanLoop_all_saved (w : World) (rest : List LinkDoc) :
    ∀ (i : Nat) (st : PassState) (pre : List LinkDoc),
      st.store = pre ++ rest → pre.length = i →
      (∀ j d, rest[j]? = some d → w.saveOk (i + j) (checkedDoc w (i + j) d) = true) →
      scanLoop w i rest st =
        { store := pre ++ checkedFrom w i rest,
          probed := st.probed ++ rest.map (fun d => d.url),
          saves := st.saves ++ savesFrom w i rest,
          finished := true } := by
  induction rest with
  | nil =>
    intro i st pre hst _ _
    simp [scanLoop, scanLoopAmid, checkedFrom, savesFrom, hst]
  | cons d rest ih =>
    intro i st pre hst hlen hsave
    have h0 : w.saveOk i (checkedDoc w i d) = true := by
      have := hsave 0 d (by simp)
      simpa using this
    have h0' : w.saveOk i (assignHealth d (checkLinkHealth (w.get i) d.url) (w.now i)) = true := h0
    have hsv := save_loaded w pre d rest i hlen
    have hsv' : save (pre ++ d :: rest) i d
        (assignHealth d (checkLinkHealth (w.get i) d.url) (w.now i)) =
          pre ++ checkedDoc w i d :: rest := hsv
    unfold scanLoop at ih ⊢
    simp only [scanLoopAmid, h0', if_true, hst, hsv']
    rw [ih (i + 1) _ (pre ++ [checkedDoc w i d])]
    · simp [checkedFrom, savesFrom, checkedDoc]
    · simp
    · simp [hlen]
    · intro j d' hj
      have := hsave (j + 1) d' (by simpa using hj)
      rw [show i + 1 + j = i + (j + 1) by omega]
      exact this

/-- The loop of a pass running alone when the save of the `k`-th remaining
document is the first to be rejected. -/
theorem scanLoop_failed_save (w : World) (rest : List LinkDoc) :
    ∀ (k i : Nat) (st : PassState) (pre : List LinkDoc) (dk : LinkDoc),
      st.store = pre ++ rest → pre.length = i →
      rest[k]? = some dk →
      (∀ j d, j < k → rest[j]? = some d → w.saveOk (i + j) (checkedDoc w (i + j) d) = true) →
      w.saveOk (i + k) (checkedDoc w (i + k) dk) = false →
      scanLoop w i rest st =
        { store := pre ++ checkedFrom w i (rest.take k) ++ rest.drop k,
          probed := st.probed ++ (rest.take (k + 1)).map (fun d => d.url),
          saves := st.saves ++ savesFrom w i (rest.take k),
          finished := st.finished } := by
  induction rest with
  | nil =>
    intro k i st pre dk _ _ hk
    simp at hk
  | cons d rest ih =>
    intro k i st pre dk hst hlen hk hsave hfail
    cases k with
    | zero =>
      simp only [List.getElem?_cons_zero, Option.some.injEq] at hk
      subst hk
      have h0 : w.saveOk i (assignHealth d (checkLinkHealth (w.get i) d.url) (w.now i)) = false := by
        simpa [checkedDoc] using hfail
      simp [scanLoop, scanLoopAmid, h0, checkedFrom, savesFrom, hst]
    | succ k =>
      have h0 : w.saveOk i (assignHealth d (checkLinkHealth (w.get i) d.url) (w.now i)) = true := by
        have := hsave 0 d (by omega) (by simp)
        simpa using this
      have hsv : save (pre ++ d :: rest) i d
          (assignHealth d (checkLinkHealth (w.get i) d.url) (w.now i)) =
            pre ++ checkedDoc w i d :: rest := save_loaded w pre d rest i hlen
      unfold scanLoop at ih ⊢
      simp only [scanLoopAmid, h0, if_true, hst, hsv]
      rw [ih k (i + 1) _ (pre ++ [checkedDoc w i d]) dk]
      · simp [checkedFrom, savesFrom, checkedDoc]
      · simp
      · simp [hlen]
      · simpa using hk
      · intro j d' hj hd'
        have := hsave (j + 1) d' (by omega) (by simpa using hd')
        rw [show i + 1 + j = i + (j + 1) by omega]
        exact this
      · rw [show i + 1 + k = i + (k + 1) by omega]
        exact hfail

/-- The shape of the collection and of the save log after the loop of a pass
running alone: the first `k` remaining documents were saved, the others are
as they were read. -/
theorem scanLoop_shape (w : World) (rest : List LinkDoc) :
    ∀ (i : Nat) (st : PassState) (pre : List LinkDoc),
      st.store = pre ++ rest → pre.length = i →
      ∃ k, k ≤ rest.length ∧
        (scanLoop w i rest st).store = pre ++ checkedFrom w i (rest.take k) ++ rest.drop k ∧
        (scanLoop w i rest st).saves = st.saves ++ savesFrom w i (rest.take k) := by
  induction rest with
  | nil =>
    intro i st pre hst _
    exact ⟨0, by simp, by simp [scanLoop, scanLoopAmid, checkedFrom, hst],
      by simp [scanLoop, scanLoopAmid, savesFrom]⟩
  | cons d rest ih =>
    intro i st pre hst hlen
    cases h0 : w.saveOk i (assignHealth d (checkLinkHealth (w.get i) d.url) (w.now i)) with
    | false =>
      exact ⟨0, by simp, by simp [scanLoop, scanLoopAmid, h0, checkedFrom, hst],
        by simp [scanLoop, scanLoopAmid, h0, savesFrom]⟩
    | true =>
      have hsv : save (pre ++ d :: rest) i d
          (assignHealth d (checkLinkHealth (w.get i) d.url) (w.now i)) =
            pre ++ checkedDoc w i d :: rest := save_loaded w pre d rest i hlen
      obtain ⟨k, hk, hstore, hsaves⟩ := ih (i + 1)
        { store := pre ++ checkedDoc w i d :: rest, probed := st.probed ++ [d.url],
          saves := st.saves ++ [(i, checkedDoc w i d)], finished := st.finished }
        (pre ++ [checkedDoc w i d]) (by simp) (by simp [hlen])
      refine ⟨k + 1, by simpa using hk, ?_, ?_⟩
      · unfold scanLoop at hstore ⊢
        simp only [scanLoopAmid, h0, if_true, hst, hsv]
        simpa [checkedFrom, checkedDoc] using hstore
      · unfold scanLoop at hsaves ⊢
        simp only [scanLoopAmid, h0, if_true, hst, hsv]
        simpa [savesFrom, checkedDoc] using hsaves

/-- C6 (as stated, refuted): a pass whose save lands after the save of an
earlier pass still in flight writes a record, every save fulfilling, and
leaves it with status "Failed (Code: 503)" and linkRotWarning false, so the
stored flag is not the one the status gives. -/
theorem warning_from_status_counterexample :
    (updateAllLinkStatusesAmid laterPassWorld earlierPassSave overlapStore).saves.map
        (fun p => (p.1, p.2.status, p.2.linkRotWarning)) =
      [(0, js "Failed (Code: 503)", true)] ∧
    (updateAllLinkStatusesAmid laterPassWorld earlierPassSave overlapStore).store.map
        (fun d => (d.status, d.linkRotWarning)) =
      [(js "Failed (Code: 503)", false)] ∧
    ¬ (∀ d ∈ (updateAllLinkStatusesAmid laterPassWorld earlierPassSave overlapStore).store,
        (d.linkRotWarning = false ↔ startsWith d.status (js "OK") = true)) := by
  refine ⟨by decide, by decide, ?_⟩
  intro h
  have h0 := h { title := "Copyright Act, 1957", category := "Copyright",
                 url := "https://ipindia.gov.in/", status := js "Failed (Code: 503)",
                 lastChecked := some 2000, linkRotWarning := false } (by decide)
  revert h0
  decide

/-- C6 (amended): the warning is a function of the status label
`checkLinkHealth` returns: it returns warning = false exactly when its
newStatus starts with "OK", and two outcomes with the same newStatus have the
same warning. After a pass during which no other pass writes the collection
has saved a record, the collection holds that record as saved, with
linkRotWarning = false exactly when its status starts with "OK". -/
theorem warning_determined_by_status :
    (∀ (get : String → AxiosResult) (url : String),
      (checkLinkHealth get url).warning = false ↔
        startsWith (checkLinkHealth get url).newStatus (js "OK") = true) ∧
    (∀ (get₁ get₂ : String → AxiosResult) (url₁ url₂ : String),
      (checkLinkHealth get₁ url₁).newStatus = (checkLinkHealth get₂ url₂).newStatus →
        (checkLinkHealth get₁ url₁).warning = (checkLinkHealth get₂ url₂).warning) ∧
    (∀ (w : World) (store : Store) (i : Nat) (d : LinkDoc),
      (i, d) ∈ (updateAllLinkStatuses w store).saves →
        (updateAllLinkStatuses w store).store[i]? = some d ∧
        (d.linkRotWarning = false ↔ startsWith d.status (js "OK") = true)) := by
  refine ⟨?_, ?_, ?_⟩
  · intro get url
    rw [checkLinkHealth_warning]
    simp
  · intro get₁ get₂ url₁ url₂ h
    rw [checkLinkHealth_warning get₁, checkLinkHealth_warning get₂, h]
  · intro w store i d hmem
    obtain ⟨k, hk, hstore, hsaves⟩ := scanLoop_shape w store 0
      { store := store, probed := [], saves := [], finished := false } [] rfl rfl
    have hstore' : (updateAllLinkStatuses w store).store =
        checkedFrom w 0 (store.take k) ++ store.drop k := by
      simpa using hstore
    have hsaves' : (updateAllLinkStatuses w store).saves = savesFrom w 0 (store.take k) := by
      simpa using hsaves
    rw [hsaves'] at hmem
    obtain ⟨j, d₀, hj, hp⟩ := savesFrom_mem w (store.take k) 0 (i, d) hmem
    simp only [Nat.zero_add, Prod.mk.injEq] at hp
    obtain ⟨hi, hd⟩ := hp
    subst hi
    subst hd
    constructor
    · rw [hstore']
      have hlt : i < (checkedFrom w 0 (store.take k)).length := by
        rw [checkedFrom_length]
        rcases Nat.lt_or_ge i (store.take k).length with hl | hl
        · exact hl
        · rw [List.getElem?_eq_none hl] at hj
          cases hj
      rw [List.getElem?_append_left hlt, checkedFrom_getElem?, hj]
      simp
    · show (checkLinkHealth (w.get i) d₀.url).warning = false ↔
        startsWith (checkLinkHealth (w.get i) d₀.url).newStatus (js "OK") = true
      rw [checkLinkHealth_warning]
      simp

theorem warning_determined_by_status_witness :
    ((checkLinkHealth
        (fun _ => .rejected { response := none, code := none, message := js "OK (Code: 200)" })
        "https://ipindia.gov.in/").warning = false ↔
      startsWith (checkLinkHealth
        (fun _ => .rejected { response := none, code := none, message := js "OK (Code: 200)" })
        "https://ipindia.gov.in/").newStatus (js "OK") = true) ∧
    (checkLinkHealth
        (fun _ => .rejected { response := none, code := none, message := js "OK (Code: 200)" })
        "https://ipindia.gov.in/").newStatus = js "Network Error: OK (Code: 200)..." ∧
    (updateAllLinkStatuses exampleWorld exampleStore).store[1]? =
      some { title := "Copyright Act, 1957", category := "Copyright",
             url := "https://ipindia.gov.in/", status := js "OK (Code: 200)",
             lastChecked := some 1001, linkRotWarning := false } :=
  ⟨warning_determined_by_status.1 _ _, rfl,
   (warning_determined_by_status.2.2 exampleWorld exampleStore 1
      { title := "Copyright Act, 1957", category := "Copyright",
        url := "https://ipindia.gov.in/", status := js "OK (Code: 200)",
        lastChecked := some 1001, linkRotWarning := false } (by decide)).1⟩

/-- C9 (as stated, refuted): in a pass in which every save fulfils, but whose
save lands after the save of an earlier pass still in flight, the record is
left with linkRotWarning false although `checkLinkHealth` returned true to
this pass. -/
theorem updateAllLinkStatuses_overlap_counterexample :
    (∀ i d, laterPassWorld.saveOk i d = true) ∧
    (updateAllLinkStatusesAmid laterPassWorld earlierPassSave overlapStore).finished = true ∧
    (updateAllLinkStatusesAmid laterPassWorld earlierPassSave overlapStore).saves.length = 1 ∧
    ¬ (∀ i d, overlapStore[i]? = some d →
        ∃ d', (updateAllLinkStatusesAmid laterPassWorld earlierPassSave overlapStore).store[i]? =
            some d' ∧
          d'.status = (checkLinkHealth (laterPassWorld.get i) d.url).newStatus ∧
          d'.linkRotWarning = (checkLinkHealth (laterPassWorld.get i) d.url).warning) := by
  refine ⟨fun _ _ => rfl, by decide, by decide, ?_⟩
  intro h
  obtain ⟨d', hd', _, hw⟩ := h 0 _ rfl
  have hstored :
      (updateAllLinkStatusesAmid laterPassWorld earlierPassSave overlapStore).store[0]? =
        some { title := "Copyright Act, 1957", category := "Copyright",
               url := "https://ipindia.gov.in/", status := js "Failed (Code: 503)",
               lastChecked := some 2000, linkRotWarning := false } := by
    decide
  rw [hstored] at hd'
  cases hd'
  revert hw
  decide

/-- C9 (amended): a pass during which no other pass writes the collection,
and in which every save fulfils, returns normally, keeps the number of
documents, and leaves at every position a document with the url, title and
category it had, the status and linkRotWarning `checkLinkHealth` returned for
its url, and lastChecked the clock of that iteration; the save log holds one
save per document, in listing order, each carrying the three fields. -/
theorem updateAllLinkStatuses_all_saved (w : World) (store : Store)
    (hsave : ∀ i d, store[i]? = some d → w.saveOk i (checkedDoc w i d) = true) :
    (updateAllLinkStatuses w store).finished = true ∧
    (updateAllLinkStatuses w store).store.length = store.length ∧
    (updateAllLinkStatuses w store).saves.length = store.length ∧
    (updateAllLinkStatuses w store).probed = store.map (fun d => d.url) ∧
    (∀ i d, store[i]? = some d →
      ∃ d', (updateAllLinkStatuses w store).store[i]? = some d' ∧
        (updateAllLinkStatuses w store).saves[i]? = some (i, d') ∧
        d'.url = d.url ∧ d'.title = d.title ∧ d'.category = d.category ∧
        d'.status = (checkLinkHealth (w.get i) d.url).newStatus ∧
        d'.linkRotWarning = (checkLinkHealth (w.get i) d.url).warning ∧
        d'.lastChecked = some (w.now i)) := by
  have h := scanLoop_all_saved w store 0
    { store := store, probed := [], saves := [], finished := false } [] rfl rfl
    (by intro j d hj; simpa using hsave j d hj)
  have hr : updateAllLinkStatuses w store =
      { store := checkedFrom w 0 store, probed := store.map (fun d => d.url),
        saves := savesFrom w 0 store, finished := true } := by
    simpa using h
  rw [hr]
  refine ⟨rfl, checkedFrom_length w store 0, savesFrom_length w store 0, rfl, ?_⟩
  intro i d hd
  refine ⟨checkedDoc w i d, ?_, ?_, rfl, rfl, rfl, rfl, rfl, rfl⟩
  · simp [checkedFrom_getElem?, hd]
  · simp [savesFrom_getElem?, hd]

theorem updateAllLinkStatuses_all_saved_witness :
    (updateAllLinkStatuses exampleWorld exampleStore).finished = true ∧
    (updateAllLinkStatuses exampleWorld exampleStore).store.length = 4 ∧
    (updateAllLinkStatuses exampleWorld exampleStore).store.map (fun d => d.status) =
      [js "OK (Code: 200)", js "OK (Code: 200)", js "OK (Code: 200)", js "OK (Code: 200)"] ∧
    (updateAllLinkStatuses exampleWorld exampleStore).store.map (fun d => d.lastChecked) =
      [some 1000, some 1001, some 1002, some 1003] :=
  have h := updateAllLinkStatuses_all_saved exampleWorld exampleStore (fun _ _ _ => rfl)
  ⟨h.1, h.2.1, by decide, by decide⟩

/-- C7 (as stated, refuted): with four documents and only the save of the
second rejected, the third document is neither probed nor updated. -/
theorem updateAllLinkStatuses_failed_save_counterexample :
    (∀ i d, failingSaveWorld.saveOk i d = false ↔ i = 1) ∧
    ¬ (∀ i d, i ≠ 1 → exampleStore[i]? = some d →
        d.url ∈ (updateAllLinkStatuses failingSaveWorld exampleStore).probed ∧
        (updateAllLinkStatuses failingSaveWorld exampleStore).store[i]? =
          some (checkedDoc failingSaveWorld i d)) := by
  constructor
  · intro i d
    simp [failingSaveWorld]
  · intro h
    have h2 := (h 2 _ (by decide) rfl).1
    revert h2
    decide

/-- C7 (amended): when the save of the document at position `k` is the first
to be rejected, the pass does not return normally; the documents before `k`
are saved with their new status, linkRotWarning and lastChecked; the document
at `k` and every later one keep their stored record; the URLs probed are those
of positions `0..k`; and `k` saves were made. The collection is that of a
pass during which no other pass writes it. -/
theorem updateAllLinkStatuses_aborts_at_failed_save (w : World) (store : Store)
    (k : Nat) (dk : LinkDoc)
    (hk : store[k]? = some dk)
    (hbefore : ∀ i d, i < k → store[i]? = some d → w.saveOk i (checkedDoc w i d) = true)
    (hfail : w.saveOk k (checkedDoc w k dk) = false) :
    (updateAllLinkStatuses w store).finished = false ∧
    (∀ i d, i < k → store[i]? = some d →
      (updateAllLinkStatuses w store).store[i]? = some (checkedDoc w i d)) ∧
    (∀ i, k ≤ i → (updateAllLinkStatuses w store).store[i]? = store[i]?) ∧
    (updateAllLinkStatuses w store).probed = (store.take (k + 1)).map (fun d => d.url) ∧
    (updateAllLinkStatuses w store).saves = savesFrom w 0 (store.take k) := by
  have h := scanLoop_failed_save w store k 0
    { store := store, probed := [], saves := [], finished := false } [] dk rfl rfl hk
    (by intro j d hj hd; simpa using hbefore j d hj hd)
    (by simpa using hfail)
  have hr : updateAllLinkStatuses w store =
      { store := checkedFrom w 0 (store.take k) ++ store.drop k,
        probed := (store.take (k + 1)).map (fun d => d.url),
        saves := savesFrom w 0 (store.take k), finished := false } := by
    simpa using h
  have hklt : k < store.length := by
    rcases Nat.lt_or_ge k store.length with h | h
    · exact h
    · rw [List.getElem?_eq_none h] at hk
      cases hk
  have hlen : (checkedFrom w 0 (store.take k)).length = k := by
    rw [checkedFrom_length, List.length_take]
    omega
  rw [hr]
  refine ⟨rfl, ?_, ?_, rfl, rfl⟩
  · intro i d hi hd
    show (checkedFrom w 0 (store.take k) ++ store.drop k)[i]? = _
    rw [List.getElem?_append_left (by omega), checkedFrom_getElem?, List.getElem?_take_of_lt hi, hd]
    simp
  · intro i hi
    show (checkedFrom w 0 (store.take k) ++ store.drop k)[i]? = _
    rw [List.getElem?_append_right (by omega), hlen, List.getElem?_drop]
    congr 1
    omega

theorem updateAllLinkStatuses_aborts_at_failed_save_witness :
    (updateAllLinkStatuses failingSaveWorld exampleStore).finished = false ∧
    (updateAllLinkStatuses failingSaveWorld exampleStore).store.map (fun d => d.status) =
      [js "OK (Code: 200)", js "Pending Check", js "Pending Check", js "Pending Check"] ∧
    (updateAllLinkStatuses failingSaveWorld exampleStore).probed =
      ["https://ipindia.gov.in/writereaddata/portal/ipoact/1_31_1_patent-act-1970-11march2015.pdf",
       "https://ipindia.gov.in/"] :=
  have h := updateAllLinkStatuses_aborts_at_failed_save failingSaveWorld exampleStore 1
    (seedDoc { url := "https://ipindia.gov.in/", title := "Copyright Act, 1957",
               category := "Copyright", status := "Pending Check", linkRotWarning := false })
    rfl (by intro i d hi _; have : i = 0 := by omega
            subst this; rfl) rfl
  ⟨h.1, by decide, by decide⟩

/-! ## Seeding -/

theorem seed_of_ne_nil (store : Store) (h : store ≠ []) : seed store = some store := by
  cases store with
  | nil => exact absurd rfl h
  | cons d ds => simp [seed]

theorem seed_nil : seed [] = some (initialLinks.map seedDoc) := by
  decide

/-- C10: seeding is idempotent. A store holding at least one record is left
as it is; the empty store receives exactly the 4 entries of initialLinks,
with pairwise distinct urls, each with status "Pending Check", lastChecked
null and linkRotWarning false; and seeding twice gives what seeding once
gives. -/
theorem seed_idempotent (store : Store) :
    (store ≠ [] → seed store = some store) ∧
    (store = [] → seed store = some (initialLinks.map seedDoc)) ∧
    (initialLinks.map seedDoc).length = 4 ∧
    ((initialLinks.map seedDoc).map (fun d => d.url)).Nodup ∧
    (∀ d ∈ initialLinks.map seedDoc,
      d.status = js "Pending Check" ∧ d.lastChecked = none ∧ d.linkRotWarning = false) ∧
    (seed store).bind seed = seed store := by
  refine ⟨seed_of_ne_nil store, ?_, by decide, by decide, by decide, ?_⟩
  · intro h
    rw [h]
    exact seed_nil
  · cases store with
    | nil =>
      rw [seed_nil]
      exact seed_of_ne_nil (initialLinks.map seedDoc) (by decide)
    | cons d ds =>
      rw [seed_of_ne_nil (d :: ds) (by simp)]
      exact seed_of_ne_nil (d :: ds) (by simp)

theorem seed_idempotent_witness :
    seed [{ title := "Designs Act, 2000", category := "Designs",
            url := "https://ipindia.gov.in/designs.htm", status := js "OK (Code: 200)",
            lastChecked := some 1000, linkRotWarning := false }] =
      some [{ title := "Designs Act, 2000", category := "Designs",
              url := "https://ipindia.gov.in/designs.htm", status := js "OK (Code: 200)",
              lastChecked := some 1000, linkRotWarning := false }] ∧
    (seed []).map List.length = some 4 ∧
    (seed []).bind seed = seed [] :=
  ⟨(seed_idempotent _).1 (by decide), by decide, (seed_idempotent []).2.2.2.2.2⟩

/-! ## The scheduler -/

theorem step_startupInvariant (s s' : SchedState) (e : Event)
    (hs : startupInvariant s) (h : step s e = some s') : startupInvariant s' := by
  obtain ⟨h0, h1⟩ := hs
  rcases s with ⟨phase, running, started⟩
  cases e <;> cases phase <;> simp [step] at h
  · subst h
    have := h0 rfl
    simp at this
    subst this
    exact ⟨by simp, by simp⟩
  · subst h
    exact ⟨by simp, by simp⟩
  · obtain ⟨_, h⟩ := h
    subst h
    exact ⟨by simp, by simp⟩
  · obtain ⟨_, h⟩ := h
    subst h
    exact ⟨by simp, by simp⟩

theorem run_startupInvariant (es : List Event) :
    ∀ (s s' : SchedState), startupInvariant s → run s es = some s' → startupInvariant s' := by
  induction es with
  | nil =>
    intro s s' hs h
    simp only [run, Option.some.injEq] at h
    exact h ▸ hs
  | cons e es ih =>
    intro s s' hs h
    simp only [run] at h
    cases hstep : step s e with
    | none => simp [hstep] at h
    | some s₁ =>
      rw [hstep] at h
      exact ih s₁ s' (step_startupInvariant s s₁ e hs hstep) h

/-- C8 (as stated, refuted): after startup, the completion of the startup
pass and two hourly triggers with no completion in between, two passes are
running and three have been started. -/
theorem scheduler_overlap_counterexample :
    run SchedState.init [.startup, .passCompleted, .trigger, .trigger] =
      some { phase := .scheduled, running := 2, started := 3 } ∧
    ¬ (∀ (es : List Event) (s : SchedState), run SchedState.init es = some s → s.running ≤ 1) := by
  refine ⟨by decide, ?_⟩
  intro h
  have h2 := h [.startup, .passCompleted, .trigger, .trigger]
    { phase := .scheduled, running := 2, started := 3 } (by decide)
  revert h2
  decide

/-- C8 (amended): in every reachable state, once `cron.schedule` has run an
hourly trigger starts a new pass whether or not passes are running (the
running and started counts both grow by one); before that no hourly trigger
can fire and at most one pass, the startup pass, is running. -/
theorem trigger_always_starts_pass (es : List Event) (s : SchedState)
    (h : run SchedState.init es = some s) :
    (s.phase = .scheduled →
      step s .trigger = some { s with running := s.running + 1, started := s.started + 1 }) ∧
    (s.phase ≠ .scheduled → step s .trigger = none ∧ s.running ≤ 1) := by
  have hinv := run_startupInvariant es SchedState.init s
    ⟨fun _ => rfl, fun h => by cases h⟩ h
  obtain ⟨h0, h1⟩ := hinv
  rcases s with ⟨phase, running, started⟩
  cases phase
  · have hr : running = 0 := h0 rfl
    exact ⟨fun h => (by cases h), fun _ => ⟨rfl, by simp [hr]⟩⟩
  · have hr : running = 1 := h1 rfl
    exact ⟨fun h => (by cases h), fun _ => ⟨rfl, by simp [hr]⟩⟩
  · exact ⟨fun _ => rfl, fun h => absurd rfl h⟩

theorem trigger_always_starts_pass_witness :
    step { phase := .scheduled, running := 1, started := 2 } .trigger =
      some { phase := .scheduled, running := 2, started := 3 } :=
  (trigger_always_starts_pass [.startup, .passCompleted, .trigger]
    { phase := .scheduled, running := 1, started := 2 } (by decide)).1 rfl

end ReferenceHub
